import Mathlib

/-!
# Verification of the BZFlag dispatch core (BZFlag/Event.py)

A shallow embedding of the event/observer primitive and the reactor loop of
the repository, together with theorems settling the frozen claims about it.

Time values (Python floats obtained from time.time()) are modelled as
rationals; truthiness of a Python return value is modelled by Option
(some = truthy, none = falsy/None).
-/

set_option autoImplicit false

namespace BZFlagEvent

/-! ## Timers (BZFlag/Event.py, lines 100-146)

PeriodicTimer.poll (lines 141-146) is

    def poll(self, now):
        if now > self.activationTime:
            self.activate()
            while self.activationTime < now:
                self.activationTime += self.period
            return 1

The catch-up while-loop is embedded with explicit fuel: advanceFuel returns
some of the final activationTime when the loop finishes within the given
number of iterations, and none when it needs more.  A result of
none-for-every-fuel is exactly non-termination of the source loop.
-/

/-- The catch-up loop: while act < now, act := act + period. -/
def advanceFuel (period now : ℚ) : ℕ → ℚ → Option ℚ
  | 0, act => if act < now then none else some act
  | fuel + 1, act => if act < now then advanceFuel period now fuel (act + period) else some act

/-- State of a PeriodicTimer (lines 132-146): its period and its activationTime. -/
structure PeriodicTimer where
  period : ℚ
  activationTime : ℚ
  deriving DecidableEq

/-- PeriodicTimer.poll (lines 141-146).  Returns the timer state after the
call, the number of handler invocations it performed (self.activate calls),
and the returned value's truthiness (the source returns 1 after firing and
falls off the end, returning None, otherwise).  none = the catch-up loop did
not finish within the given fuel. -/
def PeriodicTimer.poll (t : PeriodicTimer) (now : ℚ) (fuel : ℕ) :
    Option (PeriodicTimer × ℕ × Bool) :=
  if now > t.activationTime then
    (advanceFuel t.period now fuel t.activationTime).map
      (fun a => ({ t with activationTime := a }, 1, true))
  else
    some (t, 0, false)

/-- State of a OneshotTimer (lines 120-129): just its activationTime.
The source class also stores the handler and the owning event loop;
handler invocations are reported as a count instead. -/
structure OneshotTimer where
  activationTime : ℚ
  deriving DecidableEq

/-- OneshotTimer.poll (lines 126-129):

    def poll(self, now):
        if now > self.activationTime:
            self.activate()
            self.eventLoop.remove(self)

Returns the timer state after the call (the source mutates nothing on self),
the number of handler invocations, and whether it asked its event loop to
remove it. -/
def OneshotTimer.poll (t : OneshotTimer) (now : ℚ) : OneshotTimer × ℕ × Bool :=
  if now > t.activationTime then (t, 1, true) else (t, 0, false)

/-- With period 0 the catch-up loop makes no progress: once act < now it
never finishes, whatever the fuel. -/
theorem advanceFuel_zero_period (now act : ℚ) (h : act < now) :
    ∀ fuel, advanceFuel 0 now fuel act = none := by
  intro fuel
  induction fuel with
  | zero => simp [advanceFuel, h]
  | succ n ih => simpa [advanceFuel, h] using ih

/-- Once act is not below now, the loop exits at once with any fuel. -/
theorem advanceFuel_done (period now act : ℚ) (h : ¬ act < now) :
    ∀ fuel, advanceFuel period now fuel act = some act := by
  intro fuel
  cases fuel with
  | zero => simp [advanceFuel, h]
  | succ n => simp [advanceFuel, h]

/-- One step of the loop while act < now. -/
theorem advanceFuel_step (period now act : ℚ) (h : act < now) (fuel : ℕ) :
    advanceFuel period now (fuel + 1) act = advanceFuel period now fuel (act + period) := by
  simp [advanceFuel, h]

/-- Claim C1: a PeriodicTimer with period 0 polled past its deadline should
terminate, fire once, reset its deadline to now and report a change.  The
source's catch-up loop `while activationTime < now: activationTime += 0`
never terminates: at period 0, activationTime 0, now 1, poll runs out of any
amount of fuel. -/
theorem periodic_poll_period_zero_diverges :
    ∀ fuel : ℕ, PeriodicTimer.poll ⟨0, 0⟩ 1 fuel = none := by
  intro fuel
  have h : (1 : ℚ) > 0 := by norm_num
  simp [PeriodicTimer.poll, h, advanceFuel_zero_period 1 0 (by norm_num) fuel]

/-- Claim C5: a PeriodicTimer with positive period P and deadline T0, polled
at T0 + 3.5 P, fires the handler exactly once, advances the deadline to
T0 + 4 P, and T0 + 4 P is the smallest T0 + k P (k a positive integer) that
exceeds T0 + 3.5 P.  The catch-up loop needs four iterations; any fuel of at
least four gives the same result. -/
theorem periodic_poll_catchup (T0 P : ℚ) (hP : 0 < P) (n : ℕ) :
    PeriodicTimer.poll ⟨P, T0⟩ (T0 + 7/2 * P) (n + 4)
        = some (⟨P, T0 + 4 * P⟩, 1, true)
      ∧ T0 + 7/2 * P < T0 + 4 * P
      ∧ ∀ k : ℕ, 0 < k → T0 + 7/2 * P < T0 + (k : ℚ) * P → T0 + 4 * P ≤ T0 + (k : ℚ) * P := by
  have hnow : T0 + 7/2 * P > T0 := by linarith
  have hadv : advanceFuel P (T0 + 7/2 * P) (n + 4) T0 = some (T0 + 4 * P) := by
    rw [show n + 4 = (n + 3) + 1 from rfl,
        advanceFuel_step P (T0 + 7/2 * P) T0 (by linarith) (n + 3),
        show n + 3 = (n + 2) + 1 from rfl,
        advanceFuel_step P (T0 + 7/2 * P) (T0 + P) (by linarith) (n + 2),
        show n + 2 = (n + 1) + 1 from rfl,
        advanceFuel_step P (T0 + 7/2 * P) (T0 + P + P) (by linarith) (n + 1),
        advanceFuel_step P (T0 + 7/2 * P) (T0 + P + P + P) (by linarith) n,
        advanceFuel_done P (T0 + 7/2 * P) (T0 + P + P + P + P) (by intro h; linarith) n]
    ring_nf
  refine ⟨?_, by linarith, ?_⟩
  · simp [PeriodicTimer.poll, hnow, hadv]
  · intro k hk hlt
    have hk4 : (4 : ℚ) ≤ (k : ℚ) := by
      by_contra hcon
      push_neg at hcon
      have hk3 : (k : ℚ) ≤ 3 := by
        have : k ≤ 3 := by exact_mod_cast Nat.lt_succ_iff.mp (by exact_mod_cast hcon)
        exact_mod_cast this
      have : (k : ℚ) * P ≤ 3 * P := by nlinarith
      linarith
    nlinarith

/-- Witness for periodic_poll_catchup at T0 = 0, P = 1, fuel 4. -/
theorem periodic_poll_catchup_witness :
    PeriodicTimer.poll ⟨1, 0⟩ (0 + 7/2 * 1) 4 = some (⟨1, 0 + 4 * 1⟩, 1, true) :=
  (periodic_poll_catchup 0 1 (by norm_num) 0).1

/-- Counterexample to claim C2: a OneshotTimer keeps no record of having
activated, so over the two-call sequence poll(1) then poll(2) on a timer with
activationTime 0, the handler is invoked in both calls — twice in total, not
at most once. -/
theorem oneshot_poll_double_activation :
    (OneshotTimer.poll ⟨0⟩ 1).2.1 = 1
      ∧ (OneshotTimer.poll (OneshotTimer.poll ⟨0⟩ 1).1 2).2.1 = 1 := by
  constructor <;> simp [OneshotTimer.poll]

/-- Claim C2 amended: a OneshotTimer that activates requests removal from
its event loop but mutates nothing on itself, so at-most-once activation
holds only while it is not polled again: any further poll call with a time
past the unchanged deadline invokes the handler again. -/
theorem oneshot_poll_no_activation_flag (t : OneshotTimer) (now nowLater : ℚ)
    (h : now > t.activationTime) (hLater : nowLater > t.activationTime) :
    OneshotTimer.poll t now = (t, 1, true)
      ∧ OneshotTimer.poll (OneshotTimer.poll t now).1 nowLater = (t, 1, true) := by
  simp [OneshotTimer.poll, h, hLater]

/-- Witness for oneshot_poll_no_activation_flag at activationTime 0,
polled at 1 and then at 2. -/
theorem oneshot_poll_no_activation_flag_witness :
    OneshotTimer.poll ⟨0⟩ 1 = (⟨0⟩, 1, true)
      ∧ OneshotTimer.poll (OneshotTimer.poll ⟨0⟩ 1).1 2 = (⟨0⟩, 1, true) :=
  oneshot_poll_no_activation_flag ⟨0⟩ 1 2 (by norm_num) (by norm_num)

/-! ## The Event (Observable) class (BZFlag/Event.py, lines 30-66)

self.clients is a Python dict keyed by callback identity, so its keys are
distinct; it is modelled as a list of callback handles of an arbitrary type
C.  A callback's behaviour is a function C → A → Option V: the argument
tuple is A, and the returned Python value is modelled by its truthiness
(some v = truthy, none = falsy).  Dispatch order over dict keys is
unspecified in the source; the list order stands for whatever order the
dict yields. -/

/-- One recorded invocation made during Event.__call__: either a registered
client called with the arguments, or the unhandledCallback called with the
arguments. -/
inductive CallEv (C A : Type) where
  | client (c : C) (a : A)
  | fallback (a : A)
  deriving DecidableEq

/-- The for-loop of Event.__call__ (lines 58-62): call each client in turn
with the same arguments; if a call returns a truthy value, return it at once.
Also records the invocations made, in order. -/
def eventLoopBody {C A V : Type} (behavior : C → A → Option V) (a : A) :
    List C → Option V × List (CallEv C A)
  | [] => (none, [])
  | c :: rest =>
    match behavior c a with
    | some v => (some v, [CallEv.client c a])
    | none =>
      let r := eventLoopBody behavior a rest
      (r.1, CallEv.client c a :: r.2)

/-- Event.__call__ (lines 56-66): if any clients are registered, run the
dispatch loop over them; otherwise invoke the unhandledCallback if one is
set.  unhandled says whether self.unhandledCallback is set. -/
def eventCall {C A V : Type} (behavior : C → A → Option V) (unhandled : Bool)
    (clients : List C) (a : A) : Option V × List (CallEv C A) :=
  match clients with
  | [] => (none, if unhandled then [CallEv.fallback a] else [])
  | c :: rest => eventLoopBody behavior a (c :: rest)

/-- A Python exception raised by the dispatch core: the TypeError of
EventLoop.add and EventLoop.remove (message: only Sockets and Timers are
supported by this event loop), the KeyError of dict deletion, or the
ValueError of list.remove. -/
inductive PyError where
  | typeError
  | keyError
  | valueError
  deriving DecidableEq

/-- Event.unobserve (lines 53-54) is `del self.clients[callback]`: deleting
an absent dict key raises KeyError and changes nothing; deleting a present
key removes exactly that entry.  Returns the raised error, if any, together
with the client set at that point. -/
def eventUnobserve {C : Type} [DecidableEq C] (clients : List C) (c : C) :
    Option PyError × List C :=
  if c ∈ clients then (none, clients.erase c) else (some PyError.keyError, clients)

/-- When every client returns a falsy value, the dispatch loop calls each
entry once, in order, with the same arguments, and produces no result. -/
theorem eventLoopBody_all_none {C A V : Type} (behavior : C → A → Option V) (a : A)
    (clients : List C) (h : ∀ c ∈ clients, behavior c a = none) :
    eventLoopBody behavior a clients = (none, clients.map (fun c => CallEv.client c a)) := by
  induction clients with
  | nil => rfl
  | cons c rest ih =>
    have hc : behavior c a = none := h c (List.mem_cons_self c rest)
    have hrest : ∀ x ∈ rest, behavior x a = none := fun x hx => h x (List.mem_cons_of_mem c hx)
    simp [eventLoopBody, hc, ih hrest]

/-- When the first truthy client is c, the dispatch loop calls the clients
before c and then c itself, returns c's value, and calls nothing further. -/
theorem eventLoopBody_first_some {C A V : Type} (behavior : C → A → Option V) (a : A)
    (pre post : List C) (c : C) (v : V)
    (hpre : ∀ x ∈ pre, behavior x a = none) (hc : behavior c a = some v) :
    eventLoopBody behavior a (pre ++ c :: post)
      = (some v, pre.map (fun x => CallEv.client x a) ++ [CallEv.client c a]) := by
  induction pre with
  | nil => simp [eventLoopBody, hc]
  | cons p rest ih =>
    have hp : behavior p a = none := hpre p (List.mem_cons_self p rest)
    have hrest : ∀ x ∈ rest, behavior x a = none := fun x hx => hpre x (List.mem_cons_of_mem p hx)
    simp [eventLoopBody, hp, ih hrest]

/-- Claim C7: in a trigger on an Event with registered callbacks, if some
callback returns a truthy value then dispatch stops there and trigger
returns that value; if every invoked callback returns a falsy value, every
registered callback is invoked exactly once with the same arguments. -/
theorem event_call_abort_or_all {C A V : Type} (behavior : C → A → Option V)
    (unhandled : Bool) (clients : List C) (a : A) (hne : clients ≠ []) :
    ((∀ c ∈ clients, behavior c a = none) →
        eventCall behavior unhandled clients a
          = (none, clients.map (fun c => CallEv.client c a)))
      ∧ ∀ (pre post : List C) (c : C) (v : V), clients = pre ++ c :: post →
          (∀ x ∈ pre, behavior x a = none) → behavior c a = some v →
          eventCall behavior unhandled clients a
            = (some v, pre.map (fun x => CallEv.client x a) ++ [CallEv.client c a]) := by
  constructor
  · intro hall
    cases clients with
    | nil => exact absurd rfl hne
    | cons c rest => simpa [eventCall] using eventLoopBody_all_none behavior a (c :: rest) hall
  · intro pre post c v hdec hpre hc
    subst hdec
    cases pre with
    | nil => simpa [eventCall] using eventLoopBody_first_some behavior a [] post c v hpre hc
    | cons p rest =>
      simpa [eventCall] using eventLoopBody_first_some behavior a (p :: rest) post c v hpre hc

/-- Witness for event_call_abort_or_all: three all-falsy clients are each
invoked once; and with client 1 returning a truthy 42, dispatch stops after
client 1 and returns 42. -/
theorem event_call_abort_or_all_witness :
    eventCall (fun (_ : ℕ) (_ : ℕ) => (none : Option ℕ)) false [0, 1, 2] 5
        = (none, [CallEv.client 0 5, CallEv.client 1 5, CallEv.client 2 5])
      ∧ eventCall (fun (c : ℕ) (_ : ℕ) => if c = 1 then some 42 else (none : Option ℕ))
          false [0, 1, 2] 5
        = (some 42, [CallEv.client 0 5, CallEv.client 1 5]) := by
  constructor
  · exact (event_call_abort_or_all (fun _ _ => none) false [0, 1, 2] 5 (by simp)).1
      (by intro c _; rfl)
  · exact (event_call_abort_or_all (fun c _ => if c = 1 then some 42 else none) false
      [0, 1, 2] 5 (by simp)).2 [0] [2] 1 42 rfl (by simp) (by simp)

/-- Claim C10: unobserve of an unregistered callback raises KeyError and
leaves the client set unchanged; unobserve of a registered callback removes
exactly that entry, so a subsequent all-falsy trigger invokes every other
registered callback and never invokes the removed one. -/
theorem event_unobserve_spec {C A V : Type} [DecidableEq C] (clients : List C) (c : C)
    (behavior : C → A → Option V) (a : A) :
    (c ∉ clients → eventUnobserve clients c = (some PyError.keyError, clients))
      ∧ (c ∈ clients → clients.Nodup →
          eventUnobserve clients c = (none, clients.erase c)
            ∧ c ∉ clients.erase c
            ∧ (∀ x ∈ clients, x ≠ c → x ∈ clients.erase c)
            ∧ ((∀ x ∈ clients.erase c, behavior x a = none) →
                eventCall behavior false (clients.erase c) a
                    = (none, (clients.erase c).map (fun x => CallEv.client x a))
                  ∧ CallEv.client c a
                      ∉ (clients.erase c).map (fun x => CallEv.client x a)
                  ∧ ∀ x ∈ clients, x ≠ c →
                      CallEv.client x a ∈ (clients.erase c).map (fun x => CallEv.client x a))) := by
  constructor
  · intro hmem
    simp [eventUnobserve, hmem]
  · intro hmem hnd
    have herased : c ∉ clients.erase c := List.Nodup.not_mem_erase hnd
    have hothers : ∀ x ∈ clients, x ≠ c → x ∈ clients.erase c := by
      intro x hx hne
      exact (List.mem_erase_of_ne hne).mpr hx
    refine ⟨by simp [eventUnobserve, hmem], herased, hothers, ?_⟩
    intro hall
    refine ⟨?_, ?_, ?_⟩
    · cases herase : clients.erase c with
      | nil => simp [eventCall, herase]
      | cons x rest =>
        rw [eventCall, ← herase]
        · exact herase ▸ eventLoopBody_all_none behavior a (x :: rest) (herase ▸ hall)
    · intro hin
      rcases List.mem_map.mp hin with ⟨x, hx, heq⟩
      cases heq
      exact herased hx
    · intro x hx hne
      exact List.mem_map.mpr ⟨x, hothers x hx hne, rfl⟩

/-- Witness for event_unobserve_spec: clients 1, 2, 3 with 5 unregistered
raises KeyError and changes nothing; removing client 2 lets an all-falsy
trigger invoke exactly clients 1 and 3. -/
theorem event_unobserve_spec_witness :
    eventUnobserve [1, 2, 3] (5 : ℕ) = (some PyError.keyError, [1, 2, 3])
      ∧ eventUnobserve [1, 2, 3] (2 : ℕ) = (none, [1, 3])
      ∧ eventCall (fun (_ : ℕ) (_ : ℕ) => (none : Option ℕ)) false ([1, 2, 3].erase 2) 9
          = (none, [CallEv.client 1 9, CallEv.client 3 9]) := by
  refine ⟨?_, ?_, ?_⟩
  · exact (event_unobserve_spec [1, 2, 3] 5 (fun (_ : ℕ) (_ : ℕ) => (none : Option ℕ)) 9).1
      (by decide)
  · have h := ((event_unobserve_spec [1, 2, 3] 2
      (fun (_ : ℕ) (_ : ℕ) => (none : Option ℕ)) 9).2 (by decide) (by decide)).1
    simpa using h
  · have h := (((event_unobserve_spec [1, 2, 3] 2
      (fun (_ : ℕ) (_ : ℕ) => (none : Option ℕ)) 9).2 (by decide) (by decide)).2.2.2
      (by intro x _; rfl)).1
    simpa using h

/-! ## EventLoop registration and wait-timeout computation
(BZFlag/Event.py, lines 149-213) -/

/-- An argument to EventLoop.add / EventLoop.remove, dispatched on by
isinstance in the source: a Network.Socket (carrying its selectable handle),
a Timer (carrying its activationTime, which is what getNextActivation
returns), or anything else. -/
inductive Registrant where
  | socket (selectable : ℕ)
  | timer (activationTime : ℚ)
  | other
  deriving DecidableEq

/-- The registration state of an EventLoop: self.sockets, self.timers (each
timer represented by its activationTime) and self.nextTimerActivation. -/
structure EventLoopState where
  sockets : List ℕ
  timers : List ℚ
  nextTimerActivation : Option ℚ
  deriving DecidableEq

/-- EventLoop.updateNextTimerActivation (lines 178-185): start from None and
take each timer's next activation if it is the first seen or smaller than
the best so far. -/
def updateNextTimerActivation (timers : List ℚ) : Option ℚ :=
  timers.foldl
    (fun acc x =>
      match acc with
      | none => some x
      | some best => if x < best then some x else some best)
    none

/-- EventLoop.add (lines 160-168).  Returns the raised TypeError message, if
any, together with the loop state at that point.  (item.setEventLoop(self)
stores a back-reference on the timer and is not part of the loop state.) -/
def eventLoopAdd (s : EventLoopState) (item : Registrant) : Option PyError × EventLoopState :=
  match item with
  | Registrant.socket sk => (none, { s with sockets := s.sockets ++ [sk] })
  | Registrant.timer t =>
    let s1 : EventLoopState := { s with timers := s.timers ++ [t] }
    (none, { s1 with nextTimerActivation := updateNextTimerActivation s1.timers })
  | Registrant.other => (some PyError.typeError, s)

/-- EventLoop.remove (lines 170-176).  list.remove raises ValueError when
the item is absent; for an item of neither recognised type the TypeError is
raised before anything is touched. -/
def eventLoopRemove (s : EventLoopState) (item : Registrant) : Option PyError × EventLoopState :=
  match item with
  | Registrant.socket sk =>
    if sk ∈ s.sockets then (none, { s with sockets := s.sockets.erase sk })
    else (some PyError.valueError, s)
  | Registrant.timer t =>
    if t ∈ s.timers then (none, { s with timers := s.timers.erase t })
    else (some PyError.valueError, s)
  | Registrant.other => (some PyError.typeError, s)

/-- Claim C8: adding or removing an item that is neither a Socket nor a
Timer raises the TypeError synchronously, and the loop state — sockets,
timers and cached next activation — at the moment of the raise is exactly
the state before the call. -/
theorem event_loop_add_remove_other (s : EventLoopState) :
    eventLoopAdd s Registrant.other
        = (some PyError.typeError, s)
      ∧ eventLoopRemove s Registrant.other
        = (some PyError.typeError, s) := by
  constructor <;> rfl

/-- The poll-timeout computation at the top of each run() iteration
(lines 198-208): start from self.pollTime; if a next timer activation is
cached, clamp the time remaining until it at zero and combine. -/
def computePollTime (pollTime : Option ℚ) (nextTimerActivation : Option ℚ) (now : ℚ) :
    Option ℚ :=
  match nextTimerActivation with
  | none => pollTime
  | some nta =>
    let untilNextTimer := nta - now
    let untilNextTimer := if untilNextTimer < 0 then 0 else untilNextTimer
    match pollTime with
    | none => some untilNextTimer
    | some p => if untilNextTimer < p then some untilNextTimer else some p

/-- Claim C6: the timeout passed to select is the configured poll interval
when no next activation is cached; the time remaining until the cached next
activation, clamped below at zero, when no interval is configured; the
minimum of the two when both are present; and None (wait indefinitely) when
both are absent. -/
theorem compute_poll_time_spec (p a now : ℚ) :
    computePollTime none none now = none
      ∧ computePollTime (some p) none now = some p
      ∧ computePollTime none (some a) now = some (max 0 (a - now))
      ∧ computePollTime (some p) (some a) now = some (min p (max 0 (a - now))) := by
  refine ⟨rfl, rfl, ?_, ?_⟩
  · rcases le_or_lt 0 (a - now) with h | h
    · simp [computePollTime, not_lt.mpr h, max_eq_right h]
    · simp [computePollTime, h, max_eq_left (le_of_lt h)]
  · rcases le_or_lt 0 (a - now) with h | h
    · rcases lt_or_le (a - now) p with hp | hp
      · simp [computePollTime, not_lt.mpr h, hp, max_eq_right h, min_eq_right (le_of_lt hp)]
      · simp [computePollTime, not_lt.mpr h, not_lt.mpr hp, max_eq_right h, min_eq_left hp]
    · rcases lt_or_le (0 : ℚ) p with hp | hp
      · simp [computePollTime, h, hp, max_eq_left (le_of_lt h), min_eq_right (le_of_lt hp)]
      · simp [computePollTime, h, not_lt.mpr hp, max_eq_left (le_of_lt h), min_eq_left hp]

/-! ## run() and its socket snapshot (BZFlag/Event.py, lines 187-235)

run() builds selectDict and selectables from self.sockets once, before the
while loop (lines 190-195); every iteration then passes that same
selectables list to select (line 213).  Sockets are represented by their
selectable handle (a natural number).  The environment is abstracted by two
functions: select, giving the handles reported ready from the waited list at
each iteration, and pollEffect, the effect one ready socket's poll(self) has
on self.sockets (a socket callback may call self.add, as claim C4
supposes). -/

/-- The while loop of run(), restricted to its connection half: at each
iteration wait on the snapshot list, then let each ready socket's poll
mutate self.sockets.  Records the list of handles waited on at every
iteration and returns the final self.sockets.  fuel is the number of
iterations run before self.running goes false. -/
def runConnLoop (select : List ℕ → ℕ → List ℕ) (pollEffect : ℕ → List ℕ → List ℕ)
    (selectables : List ℕ) : ℕ → ℕ → List ℕ → List (List ℕ) × List ℕ
  | 0, _, sockets => ([], sockets)
  | fuel + 1, iter, sockets =>
    let readyList := select selectables iter
    let sockets1 := readyList.foldl (fun socks r => pollEffect r socks) sockets
    let rest := runConnLoop select pollEffect selectables fuel (iter + 1) sockets1
    (selectables :: rest.1, rest.2)

/-- EventLoop.run, connection half: compute the selectables snapshot from
self.sockets (lines 190-195), then run the loop with it. -/
def runConn (select : List ℕ → ℕ → List ℕ) (pollEffect : ℕ → List ℕ → List ℕ)
    (fuel : ℕ) (sockets : List ℕ) : List (List ℕ) × List ℕ :=
  runConnLoop select pollEffect sockets fuel 0 sockets

/-- Counterexample to claim C4: start run() with socket 0 alone; socket 0 is
ready in the first iteration and its poll adds socket 1.  After that
iteration self.sockets is [0, 1], but the second iteration still waits on
the snapshot [0]: the added connection's handle is not among the handles
waited on. -/
theorem run_added_socket_not_waited_on :
    runConn (fun sel iter => if iter = 0 then sel else [])
        (fun r socks => if r = 0 then socks ++ [1] else socks) 2 [0]
      = ([[0], [0]], [0, 1]) := by
  rfl

/-- Claim C4 amended: the wait-handle list is computed from self.sockets
once, at run() entry; every iteration passes exactly that snapshot to
select, so a connection added while run() executes is appended to
self.sockets but is never waited on (and hence never reported ready or
polled) until run() is entered again. -/
theorem run_waits_on_entry_snapshot (select : List ℕ → ℕ → List ℕ)
    (pollEffect : ℕ → List ℕ → List ℕ) (fuel : ℕ) (sockets : List ℕ)
    (w : List ℕ) (hw : w ∈ (runConn select pollEffect fuel sockets).1) :
    w = sockets := by
  have general : ∀ (f iter : ℕ) (socks : List ℕ),
      w ∈ (runConnLoop select pollEffect sockets f iter socks).1 → w = sockets := by
    intro f
    induction f with
    | zero => intro iter socks h; simp [runConnLoop] at h
    | succ n ih =>
      intro iter socks h
      rw [runConnLoop] at h
      rcases List.mem_cons.mp h with h | h
      · exact h
      · exact ih (iter + 1) _ h
  exact general fuel 0 sockets hw

/-- Witness for run_waits_on_entry_snapshot, on the concrete run of the
counterexample: both waited lists equal the entry snapshot [0]. -/
theorem run_waits_on_entry_snapshot_witness :
    [0] ∈ (runConn (fun sel iter => if iter = 0 then sel else [])
        (fun r socks => if r = 0 then socks ++ [1] else socks) 2 [0]).1
      ∧ ([0] : List ℕ) = [0] :=
  ⟨by simp [runConn, runConnLoop],
   run_waits_on_entry_snapshot (fun sel iter => if iter = 0 then sel else [])
     (fun r socks => if r = 0 then socks ++ [1] else socks) 2 [0] [0]
     (by simp [runConn, runConnLoop])⟩

/-! ## The timer-polling step of run() (BZFlag/Event.py, lines 225-232)

    now = time.time()
    timesChanged = 0
    for timer in self.timers:
        if timer.poll(now):
            timesChanged = 1
    if timesChanged:
        self.updateNextTimerActivation()

The Python for statement iterates self.timers by index: it yields
self.timers[i] for i = 0, 1, ... until the index falls off the end of the
*live* list.  A OneshotTimer's poll calls self.eventLoop.remove(self), which
mutates that live list mid-iteration.  The step below embeds exactly this
index-based iteration over the mutable list. -/

/-- A timer object registered with the event loop: a OneshotTimer or a
PeriodicTimer, tagged with an identifier standing for Python object
identity (list.remove and the dict-free list model compare by it). -/
inductive TObj where
  | oneshot (id : ℕ) (activationTime : ℚ)
  | periodic (id : ℕ) (period : ℚ) (activationTime : ℚ)
  deriving DecidableEq

/-- The identity of a timer object. -/
def TObj.ident : TObj → ℕ
  | TObj.oneshot i _ => i
  | TObj.periodic i _ _ => i

/-- timer.poll(now) as called from the loop, acting on the loop's live timer
list ts.  A OneshotTimer past its deadline activates and removes itself from
ts (lines 126-129); its poll returns None, which is falsy.  A PeriodicTimer
past its deadline activates, advances its deadline by whole periods (with
explicit fuel for the catch-up loop) and returns 1, truthy.  The result is
the updated live list and the truthiness of poll's return value; none means
the periodic catch-up loop ran out of fuel. -/
def pollTObj (ts : List TObj) (t : TObj) (now : ℚ) (advFuel : ℕ) :
    Option (List TObj × Bool) :=
  match t with
  | TObj.oneshot _ act =>
    if now > act then some (ts.erase t, false) else some (ts, false)
  | TObj.periodic i p act =>
    if now > act then
      (advanceFuel p now advFuel act).map
        (fun a => (ts.map (fun x => if x = t then TObj.periodic i p a else x), true))
    else some (ts, false)

/-- The for statement over the live list: i is the iterator index, fuel
bounds the number of iterations (the wrapper passes the initial list length,
which always suffices because i grows by one per step and the list never
grows).  Returns the final live list, the identities of the timers that were
polled, in order, and the timesChanged flag. -/
def timerForLoop (now : ℚ) (advFuel : ℕ) :
    ℕ → ℕ → List TObj → Option (List TObj × List ℕ × Bool)
  | fuel, i, ts =>
    match ts.get? i with
    | none => some (ts, [], false)
    | some t =>
      match fuel with
      | 0 => none
      | fuel + 1 =>
        match pollTObj ts t now advFuel with
        | none => none
        | some (ts1, changed) =>
          (timerForLoop now advFuel fuel (i + 1) ts1).map
            (fun r => (r.1, t.ident :: r.2.1, changed || r.2.2))

/-- The whole timer-polling step of one run() iteration (lines 225-232):
iterate over the live timer list from index 0, then recompute
nextTimerActivation when any poll reported a change.  (In this model a
timer's next activation is its activationTime.) -/
def pollTimersStep (now : ℚ) (advFuel : ℕ) (ts : List TObj) :
    Option (List TObj × List ℕ × Bool) :=
  timerForLoop now advFuel ts.length 0 ts

/-- Claim C3: with two due OneshotTimers registered, timer 1 polls first,
activates and removes itself from the live list; the for statement then
asks for index 1 of the shortened list and stops, so timer 2 — registered
at the start of the step and due — is never polled in that iteration.  The
polled identities are [1] alone. -/
theorem timer_step_skips_after_self_removal :
    pollTimersStep 1 0 [TObj.oneshot 1 0, TObj.oneshot 2 0]
        = some ([TObj.oneshot 2 0], [1], false)
      ∧ (2 : ℕ) ∉ [1] := by
  constructor
  · rfl
  · decide

/-! ## The dispatch order of one run() iteration (lines 217-235)

After select returns, the iteration body is, in source order: poll every
ready socket (lines 217-223), poll the timers (lines 225-232), then fire
self.onPoll() (line 235). -/

/-- An observable dispatch event of one run() iteration. -/
inductive IterEv where
  | connPoll (selectable : ℕ)
  | timerPoll (ident : ℕ)
  | pollHook
  deriving DecidableEq

/-- One run() iteration after select: poll the sockets reported ready in
readyList, run the timer-polling step on the live timer list, fire onPoll.
Returns the dispatch trace of the iteration and the timer list it leaves
behind. -/
def iterationTrace (readyList : List ℕ) (now : ℚ) (advFuel : ℕ) (ts : List TObj) :
    Option (List IterEv × List TObj) :=
  (pollTimersStep now advFuel ts).map
    (fun r =>
      (readyList.map IterEv.connPoll ++ r.2.1.map IterEv.timerPoll ++ [IterEv.pollHook], r.1))

/-- Claim C9 at a failing input: one ready connection (handle 7) and two due
OneshotTimers.  The iteration polls the connection, polls timer 1 (which
removes itself), skips timer 2, and fires the hook: timer 2 is registered
throughout the iteration yet no timerPoll 2 event precedes the hook — it is
never polled at all. -/
theorem iteration_ordering_with_skip :
    iterationTrace [7] 1 0 [TObj.oneshot 1 0, TObj.oneshot 2 0]
        = some ([IterEv.connPoll 7, IterEv.timerPoll 1, IterEv.pollHook],
            [TObj.oneshot 2 0])
      ∧ IterEv.timerPoll 2 ∉ [IterEv.connPoll 7, IterEv.timerPoll 1, IterEv.pollHook] := by
  constructor
  · rfl
  · decide

end BZFlagEvent
